import Mathlib

/-!
Verification of `src/tools/model_factory.py` (AI-Trader).

The file shallowly embeds the two pieces of the module:
- the Response Patcher: the post-processing loop shared by
  `DeepSeekChatOpenAI._generate` and `DeepSeekChatOpenAI._agenerate`, which
  re-parses tool-call `arguments` payloads that arrived as JSON strings;
- the Model Selector: `create_chat_model` and the companion predicate
  `is_deepseek_official_api`.

Python dictionaries of the fixed response shape become Lean structures; keys
that the code may find absent become `Option` fields; the remaining keys of
each dictionary, which the code never touches, are kept as an untouched
association list so that frame properties are expressible.
-/

/-- A JSON value as produced by the Python `json` library, restricted to the
fragment without floating-point numbers (numbers are modelled as integers;
the claims under verification never depend on float payloads). Objects are
kept as association lists in textual order. -/
inductive JVal where
  | jnull : JVal
  | jbool : Bool → JVal
  | jnum : Int → JVal
  | jstr : String → JVal
  | jarr : List JVal → JVal
  | jobj : List (String × JVal) → JVal

/-- Model of `isinstance(args, str)` on a JSON value. -/
def JVal.isStr : JVal → Bool
  | JVal.jstr _ => true
  | _ => false

/-- Skip JSON whitespace, as `json.loads` does between tokens. -/
def skipWs (cs : List Char) : List Char :=
  cs.dropWhile (fun c => [' ', '\t', '\n', '\r'].contains c)

/-- Value of a decimal digit character, if it is one (code points 48-57). -/
def digitVal (c : Char) : Option Nat :=
  let n := c.toNat
  if 48 ≤ n && n ≤ 57 then some (n - 48) else none

/-- Value of a hexadecimal digit character, if it is one: decimal digits,
then the lowercase range 97-102, then the uppercase range 65-70. -/
def hexVal (c : Char) : Option Nat :=
  let n := c.toNat
  if 48 ≤ n && n ≤ 57 then some (n - 48)
  else if 97 ≤ n && n ≤ 102 then some (n - 87)
  else if 65 ≤ n && n ≤ 70 then some (n - 55)
  else none

/-- Longest run of decimal digits at the head of the input, with the rest. -/
def takeDigits : List Char → List Nat × List Char
  | [] => ([], [])
  | c :: cs =>
      match digitVal c with
      | some d =>
          let r := takeDigits cs
          (d :: r.1, r.2)
      | none => ([], c :: cs)

/-- Fold a digit run into a natural number. -/
def digitsToNat (ds : List Nat) : Nat :=
  ds.foldl (fun acc d => acc * 10 + d) 0

/-- Parse a JSON integer literal (optional minus sign, no leading zeros),
returning the value and the unconsumed input. Fails on the float forms the
model omits. -/
def parseIntLit (cs : List Char) : Option (Int × List Char) :=
  let sign : Bool := match cs with
    | '-' :: _ => true
    | _ => false
  let body := if sign then cs.drop 1 else cs
  match takeDigits body with
  | ([], _) => none
  | (d :: ds, rest) =>
      if d == 0 && ds ≠ [] then none
      else
        let n : Int := Int.ofNat (digitsToNat (d :: ds))
        some ((if sign then -n else n), rest)

/-- Body of a JSON string literal after the opening quote: handles the
escape sequences of `json.loads` (with `\u` decoded without surrogate
pairing). Returns the decoded string and the input after the closing
quote. -/
def parseStrBody (fuel : Nat) (cs : List Char) (acc : List Char) :
    Option (String × List Char) :=
  match fuel with
  | 0 => none
  | fuel + 1 =>
      match cs with
      | [] => none
      | c :: rest =>
          if c == '"' then some (String.mk acc.reverse, rest)
          else if c == '\\' then
            match rest with
            | [] => none
            | e :: rest2 =>
                if e == '"' then parseStrBody fuel rest2 ('"' :: acc)
                else if e == '\\' then parseStrBody fuel rest2 ('\\' :: acc)
                else if e == '/' then parseStrBody fuel rest2 ('/' :: acc)
                else if e == 'b' then parseStrBody fuel rest2 ('\x08' :: acc)
                else if e == 'f' then parseStrBody fuel rest2 ('\x0c' :: acc)
                else if e == 'n' then parseStrBody fuel rest2 ('\n' :: acc)
                else if e == 'r' then parseStrBody fuel rest2 ('\r' :: acc)
                else if e == 't' then parseStrBody fuel rest2 ('\t' :: acc)
                else if e == 'u' then
                  match rest2 with
                  | h1 :: h2 :: h3 :: h4 :: rest3 =>
                      match ([h1, h2, h3, h4].mapM hexVal) with
                      | some hs =>
                          parseStrBody fuel rest3
                            (Char.ofNat (hs.foldl (fun acc h => acc * 16 + h) 0) :: acc)
                      | none => none
                  | _ => none
                else none
          else parseStrBody fuel rest (c :: acc)

mutual

/-- Recursive-descent parser for a JSON value, mirroring the grammar accepted
by `json.loads` on the modelled fragment. Fuel bounds the recursion; every
recursive call consumes at least one input character, so input length plus
one is always enough fuel. -/
def parseVal (fuel : Nat) (cs : List Char) : Option (JVal × List Char) :=
  match fuel with
  | 0 => none
  | fuel + 1 =>
      match skipWs cs with
      | [] => none
      | c :: rest =>
          if c == '"' then
            match parseStrBody fuel rest [] with
            | some (s, r) => some (JVal.jstr s, r)
            | none => none
          else if c == '{' then parseObjFields fuel rest true
          else if c == '[' then parseArrItems fuel rest true
          else if c == 't' then
            match rest with
            | 'r' :: 'u' :: 'e' :: r => some (JVal.jbool true, r)
            | _ => none
          else if c == 'f' then
            match rest with
            | 'a' :: 'l' :: 's' :: 'e' :: r => some (JVal.jbool false, r)
            | _ => none
          else if c == 'n' then
            match rest with
            | 'u' :: 'l' :: 'l' :: r => some (JVal.jnull, r)
            | _ => none
          else
            match parseIntLit (c :: rest) with
            | some (n, r) => some (JVal.jnum n, r)
            | none => none

/-- Fields of a JSON object after the opening brace (or after a comma);
`first` is true before any field has been read, so that the closing brace is
accepted only where `json.loads` accepts it. -/
def parseObjFields (fuel : Nat) (cs : List Char) (first : Bool) :
    Option (JVal × List Char) :=
  match fuel with
  | 0 => none
  | fuel + 1 =>
      match skipWs cs with
      | [] => none
      | c :: rest =>
          if c == '}' && first then some (JVal.jobj [], rest)
          else if c == '"' then
            match parseStrBody fuel rest [] with
            | some (k, r1) =>
                match skipWs r1 with
                | ':' :: r2 =>
                    match parseVal fuel r2 with
                    | some (v, r3) =>
                        match skipWs r3 with
                        | ',' :: r4 =>
                            match parseObjFields fuel r4 false with
                            | some (JVal.jobj fs, r5) =>
                                some (JVal.jobj ((k, v) :: fs), r5)
                            | _ => none
                        | '}' :: r4 => some (JVal.jobj [(k, v)], r4)
                        | _ => none
                    | none => none
                | _ => none
            | none => none
          else none

/-- Items of a JSON array after the opening bracket (or after a comma). -/
def parseArrItems (fuel : Nat) (cs : List Char) (first : Bool) :
    Option (JVal × List Char) :=
  match fuel with
  | 0 => none
  | fuel + 1 =>
      match skipWs cs with
      | [] => none
      | c :: rest =>
          if c == ']' && first then some (JVal.jarr [], rest)
          else
            match parseVal fuel (c :: rest) with
            | some (v, r1) =>
                match skipWs r1 with
                | ',' :: r2 =>
                    match parseArrItems fuel r2 false with
                    | some (JVal.jarr vs, r3) => some (JVal.jarr (v :: vs), r3)
                    | _ => none
                | ']' :: r2 => some (JVal.jarr [v], r2)
                | _ => none
            | none => none

end

/-- Model of the Python call `json.loads(s)` on the fragment described at
`JVal`: parse one value and require only whitespace to remain, returning
`none` where `json.loads` raises `json.JSONDecodeError`. -/
def jsonParse (s : String) : Option JVal :=
  match parseVal (s.data.length + 1) s.data with
  | some (v, rest) => if skipWs rest = [] then some v else none
  | none => none

/-- Whether the second list occurs at the head of the first. -/
def startsWithChars : List Char → List Char → Bool
  | _, [] => true
  | [], _ :: _ => false
  | a :: as, b :: bs => a == b && startsWithChars as bs

/-- Model of the Python substring test `needle in hay`. -/
def strContains (hay needle : String) : Bool :=
  (List.range (hay.data.length + 1)).any
    (fun i => startsWithChars (hay.data.drop i) needle.data)

/-- Model of the Python method `base_url.lower()`: character-wise lowering
(ASCII letters in the inputs of interest). -/
def pyLower (s : String) : String :=
  String.mk (s.data.map Char.toLower)

/-! ## Data model of the Generation Result

The shape traversed by `_generate` and `_agenerate`:
`result.generations` is a sequence of batches, each batch a sequence of
generation entries; an entry may carry a `message`; a message carries the
dictionary `additional_kwargs`, whose `"tool_calls"` key, when present,
holds a sequence of tool-call dictionaries. Each tool-call dictionary may
have a `"function"` key whose value may have an `"arguments"` key. The
fields named `extra` (and `info`, `llm_output`) stand for all the remaining
keys and attributes that the code never reads or writes. -/

/-- The value of `tool_call["function"]`: an optional `"arguments"` entry
plus the untouched remaining keys (such as `"name"`). -/
structure FuncField where
  arguments? : Option JVal
  extra : List (String × JVal)

/-- One element of the `"tool_calls"` sequence: an optional `"function"`
entry plus the untouched remaining keys (such as `"id"` and `"type"`). -/
structure ToolCall where
  function? : Option FuncField
  extra : List (String × JVal)

/-- The dictionary `message.additional_kwargs`: the `"tool_calls"` key
(absent when `none`, mirroring `dict.get` returning `None`) plus the
untouched remaining keys. -/
structure AdditionalKwargs where
  tool_calls? : Option (List ToolCall)
  extra : List (String × JVal)

/-- A message object: its `additional_kwargs` dictionary plus its untouched
remaining attributes, represented by `content`. -/
structure Message where
  additional_kwargs : AdditionalKwargs
  content : String

/-- One generation entry. `message?` is `none` when the entry has no
`message` attribute (the combined `hasattr` guard of the code); `info`
stands for the untouched remaining attributes such as `generation_info`. -/
structure Generation where
  message? : Option Message
  info : List (String × JVal)

/-- The Generation Result: nested batches of generation entries, as the two
nested `for` loops of the code traverse them, plus the untouched remaining
attributes such as `llm_output`. -/
structure ChatResult where
  generations : List (List Generation)
  llm_output : List (String × JVal)

/-! ## The Response Patcher of `_generate`

The loop body of `DeepSeekChatOpenAI._generate`, factored bottom-up. The
Python code mutates the result in place; the embedding returns the updated
value. The underlying call `super()._generate(...)` is external to the
repository, so `_generate` is modelled as the transformation it applies to
whatever Generation Result that call returned; the `try/except
json.JSONDecodeError: pass` around the parse is total here because
`jsonParse` returns `none` exactly where the exception is raised. -/

/-- Patch of one tool call: when a `"function"` entry with an `"arguments"`
entry exists and the arguments value is a string, replace it by its JSON
parse when parsing succeeds, keep everything else untouched. -/
def patchToolCall (tc : ToolCall) : ToolCall :=
  match tc.function? with
  | none => tc
  | some f =>
      match f.arguments? with
      | none => tc
      | some args =>
          match args with
          | JVal.jstr s =>
              match jsonParse s with
              | some v => { tc with function? := some { f with arguments? := some v } }
              | none => tc
          | _ => tc

/-- Patch of one message: `additional_kwargs.get("tool_calls")` followed by
the Python truthiness test `if tool_calls:` (absent and empty both skip),
then the per-tool-call loop. -/
def patchMessage (m : Message) : Message :=
  match m.additional_kwargs.tool_calls? with
  | none => m
  | some tcs =>
      if tcs.isEmpty then m
      else
        { m with additional_kwargs :=
            { m.additional_kwargs with tool_calls? := some (tcs.map patchToolCall) } }

/-- Patch of one generation entry: the `hasattr(gen, "message") and
hasattr(gen.message, "additional_kwargs")` guard, then the message patch. -/
def patchGeneration (g : Generation) : Generation :=
  match g.message? with
  | none => g
  | some m => { g with message? := some (patchMessage m) }

/-- The whole patching pass of `_generate`: the two nested `for` loops over
`result.generations`. -/
def patchResult (r : ChatResult) : ChatResult :=
  { r with generations := r.generations.map (fun generation => generation.map patchGeneration) }

/-- Embedding of `DeepSeekChatOpenAI._generate`, as a function of the Generation Result
returned by the delegated `super()._generate(...)` call. -/
def DeepSeekChatOpenAI_generate (superResult : ChatResult) : ChatResult :=
  patchResult superResult

/-! ## The Response Patcher of `_agenerate`

`DeepSeekChatOpenAI._agenerate` repeats the same loop verbatim after
awaiting `super()._agenerate(...)`; it is embedded separately so that the
equality of the two passes is a theorem rather than a definition. -/

/-- Tool-call patch as written inside `_agenerate`. -/
def apatchToolCall (tc : ToolCall) : ToolCall :=
  match tc.function? with
  | none => tc
  | some f =>
      match f.arguments? with
      | none => tc
      | some args =>
          match args with
          | JVal.jstr s =>
              match jsonParse s with
              | some v => { tc with function? := some { f with arguments? := some v } }
              | none => tc
          | _ => tc

/-- Message patch as written inside `_agenerate`. -/
def apatchMessage (m : Message) : Message :=
  match m.additional_kwargs.tool_calls? with
  | none => m
  | some tcs =>
      if tcs.isEmpty then m
      else
        { m with additional_kwargs :=
            { m.additional_kwargs with tool_calls? := some (tcs.map apatchToolCall) } }

/-- Generation-entry patch as written inside `_agenerate`. -/
def apatchGeneration (g : Generation) : Generation :=
  match g.message? with
  | none => g
  | some m => { g with message? := some (apatchMessage m) }

/-- The whole patching pass of `_agenerate`. -/
def apatchResult (r : ChatResult) : ChatResult :=
  { r with generations := r.generations.map (fun generation => generation.map apatchGeneration) }

/-- Embedding of `DeepSeekChatOpenAI._agenerate`, as a function of the Generation Result
returned by the awaited `super()._agenerate(...)` call. -/
def DeepSeekChatOpenAI_agenerate (superResult : ChatResult) : ChatResult :=
  apatchResult superResult

/-! ## Observation helpers -/

/-- The `arguments` payload of a tool call, when the code would reach it. -/
def toolCallArg? (tc : ToolCall) : Option JVal :=
  tc.function?.bind (fun f => f.arguments?)

/-- All `arguments` payloads inside a message, in order. -/
def messageArgs (m : Message) : List JVal :=
  match m.additional_kwargs.tool_calls? with
  | none => []
  | some tcs => tcs.filterMap toolCallArg?

/-- All `arguments` payloads inside a generation entry. -/
def generationArgs (g : Generation) : List JVal :=
  match g.message? with
  | none => []
  | some m => messageArgs m

/-- All `arguments` payloads delivered by a Generation Result, in order. -/
def resultArgs (r : ChatResult) : List JVal :=
  (r.generations.flatten.map generationArgs).flatten

/-- The per-payload transformation the pass applies: a string payload is
replaced by its JSON parse when parsing succeeds; every other payload is
kept. -/
def fixArg (v : JVal) : JVal :=
  match v with
  | JVal.jstr s =>
      match jsonParse s with
      | some w => w
      | none => JVal.jstr s
  | _ => v

/-- Every `arguments` payload of the result is structured, in the sense of
not being a raw string. -/
def allArgsStructured (r : ChatResult) : Bool :=
  (resultArgs r).all (fun v => ! v.isStr)

/-! ## The Model Selector -/

/-- Which constructor `create_chat_model` invoked: `patched` stands for
`DeepSeekChatOpenAI`, `plain` for `ChatOpenAI`. -/
inductive ClientKind where
  | patched : ClientKind
  | plain : ClientKind
deriving DecidableEq

/-- The client object returned by `create_chat_model`: the constructor that
was chosen and the five keyword arguments both branches pass to it
(`verbose` is not passed on). -/
structure Client where
  kind : ClientKind
  model : String
  base_url : Option String
  api_key : Option String
  max_retries : Int
  timeout : Int

/-- Python truthiness of an optional string: `None` and the empty string are
falsy. -/
def pyTruthyStr : Option String → Bool
  | none => false
  | some s => ! (s == "")

/-- Embedding of `create_chat_model` from `src/tools/model_factory.py`. The local
`is_official_deepseek` is the truthiness of the Python expression
`base_url and "deepseek.com" in base_url.lower()`; the diagnostic print
guarded by `verbose` is I/O with no effect on the returned value and is not
modelled. -/
def create_chat_model (model : String) (base_url : Option String := none)
    (api_key : Option String := none) (max_retries : Int := 3)
    (timeout : Int := 30) (verbose : Bool := false) : Client :=
  let is_official_deepseek : Bool :=
    pyTruthyStr base_url &&
      (match base_url with
       | some u => strContains (pyLower u) "deepseek.com"
       | none => false)
  if is_official_deepseek then
    { kind := ClientKind.patched, model := model, base_url := base_url,
      api_key := api_key, max_retries := max_retries, timeout := timeout }
  else
    { kind := ClientKind.plain, model := model, base_url := base_url,
      api_key := api_key, max_retries := max_retries, timeout := timeout }

/-- Embedding of `is_deepseek_official_api` from `src/tools/model_factory.py`:
`base_url is not None and "deepseek.com" in base_url.lower()`. -/
def is_deepseek_official_api (base_url : Option String) : Bool :=
  match base_url with
  | none => false
  | some u => strContains (pyLower u) "deepseek.com"

/-- Routing rule in the words of the spec, independent of the factory code:
a Patched Client is due exactly when the base URL is present and contains
the substring "deepseek.com" in some letter case, expressed as lowercase
containment. -/
def spec_routes_to_patched (base_url : Option String) : Bool :=
  match base_url with
  | none => false
  | some u => strContains (pyLower u) "deepseek.com"

/-- Embedding of `DeepSeekChatOpenAI._create_message_dicts`: it calls the base method on
its inputs and returns that call unchanged. The base implementation lives in
the external `langchain_openai` package, so it is an arbitrary function
`superMD` here. -/
def DeepSeekChatOpenAI_create_message_dicts
    (superMD : List Message → Option (List String) → List (List (String × JVal)))
    (messages : List Message) (stop : Option (List String)) :
    List (List (String × JVal)) :=
  let message_dicts := superMD messages stop
  message_dicts

/-! ## Concrete fixtures used by witnesses and counterexamples -/

/-- The round-trip argument string of the spec. -/
def argsJson : String := "\x7b\"x\":1,\"y\":\"a\"\x7d"

/-- The `function` entry of `tcNotJson`. -/
def fnNotJson : FuncField :=
  { arguments? := some (JVal.jstr "not-json"), extra := [] }

/-- A tool call whose arguments arrived as the unparsable string
"not-json". -/
def tcNotJson : ToolCall :=
  { function? := some fnNotJson, extra := [] }

/-- The `function` entry of `tcRound`. -/
def fnRound : FuncField :=
  { arguments? := some (JVal.jstr argsJson), extra := [("name", JVal.jstr "add")] }

/-- A tool call whose arguments arrived as the parsable string
`argsJson`. -/
def tcRound : ToolCall :=
  { function? := some fnRound, extra := [("id", JVal.jstr "call_0")] }

/-- The function entry of `tcRound` after the pass has parsed its
arguments. -/
def fnRoundPatched : FuncField :=
  { arguments? := some (JVal.jobj [("x", JVal.jnum 1), ("y", JVal.jstr "a")]),
    extra := [("name", JVal.jstr "add")] }

/-- A tool call whose arguments arrived as the JSON text of a quoted empty
object: one parse yields the string of an object, a second parse would
yield the object. -/
def tcQuoted : ToolCall :=
  { function? := some { arguments? := some (JVal.jstr "\"\x7b\x7d\""), extra := [] },
    extra := [] }

/-- A tool call whose arguments are already structured. -/
def tcStructured : ToolCall :=
  { function? := some { arguments? := some (JVal.jobj [("x", JVal.jnum 1)]), extra := [] },
    extra := [] }

/-- A message holding the given tool calls. -/
def msgOf (tcs : List ToolCall) : Message :=
  { additional_kwargs := { tool_calls? := some tcs, extra := [] }, content := "" }

/-- A one-generation result holding the given tool calls. -/
def resultOf (tcs : List ToolCall) : ChatResult :=
  { generations := [[{ message? := some (msgOf tcs), info := [] }]],
    llm_output := [] }

/-- The first delivered arguments payload of a result, used to tell two
results apart. -/
def firstArg? (r : ChatResult) : Option JVal :=
  (resultArgs r).head?

/-! ## Lemmas about the patching pass -/

/-- Sanity checks that the parser model behaves like `json.loads` on the
inputs the claims mention: the malformed string, the round-trip object, the
quoted empty object, the empty object, an array with mixed items, a negative
integer, a leading-zero rejection, and the two routing URLs of the spec
scenario. -/
theorem jsonParse_model_checks :
    jsonParse "not-json" = none
    ∧ jsonParse argsJson = some (JVal.jobj [("x", JVal.jnum 1), ("y", JVal.jstr "a")])
    ∧ jsonParse "\"\x7b\x7d\"" = some (JVal.jstr "\x7b\x7d")
    ∧ jsonParse "\x7b\x7d" = some (JVal.jobj [])
    ∧ jsonParse " [1, true, null, \"a\"] "
        = some (JVal.jarr [JVal.jnum 1, JVal.jbool true, JVal.jnull, JVal.jstr "a"])
    ∧ jsonParse "-42" = some (JVal.jnum (-42))
    ∧ jsonParse "01" = none
    ∧ strContains (pyLower "https://API.DeepSeek.com/v1") "deepseek.com" = true
    ∧ strContains (pyLower "https://proxy.example.com/v1") "deepseek.com" = false :=
  ⟨rfl, rfl, rfl, rfl, rfl, rfl, rfl, rfl, rfl⟩

/-- A map whose function fixes every member of a list fixes the list. -/
theorem map_eq_self_of_mem {α : Type} {f : α → α} :
    ∀ l : List α, (∀ a, a ∈ l → f a = a) → l.map f = l
  | [], _ => rfl
  | a :: as, h => by
      rw [List.map_cons, h a (List.mem_cons_self a as),
        map_eq_self_of_mem as (fun b hb => h b (List.mem_cons_of_mem a hb))]

/-- The arguments payload that `patchToolCall` delivers is the `fixArg`
image of the payload it received. -/
theorem toolCallArg?_patch (tc : ToolCall) :
    toolCallArg? (patchToolCall tc) = (toolCallArg? tc).map fixArg := by
  rcases tc with ⟨fn?, ex⟩
  cases fn? with
  | none => rfl
  | some f =>
      rcases f with ⟨args?, fex⟩
      cases args? with
      | none => rfl
      | some v =>
          cases v with
          | jnull => rfl
          | jbool b => rfl
          | jnum n => rfl
          | jarr xs => rfl
          | jobj fs => rfl
          | jstr s =>
              cases h : jsonParse s <;>
                simp [patchToolCall, toolCallArg?, fixArg, h]

/-- A tool call whose reachable arguments payload is not a string is left
untouched by `patchToolCall`. -/
theorem patchToolCall_id (tc : ToolCall)
    (h : ∀ v, toolCallArg? tc = some v → v.isStr = false) :
    patchToolCall tc = tc := by
  rcases tc with ⟨fn?, ex⟩
  cases fn? with
  | none => rfl
  | some f =>
      rcases f with ⟨args?, fex⟩
      cases args? with
      | none => rfl
      | some v =>
          cases v with
          | jnull => rfl
          | jbool b => rfl
          | jnum n => rfl
          | jarr xs => rfl
          | jobj fs => rfl
          | jstr s =>
              have := h (JVal.jstr s) rfl
              simp [JVal.isStr] at this

/-- The arguments payloads that `patchMessage` delivers are the `fixArg`
image of the payloads it received. -/
theorem messageArgs_patch (m : Message) :
    messageArgs (patchMessage m) = (messageArgs m).map fixArg := by
  rcases m with ⟨⟨tcs?, kex⟩, content⟩
  cases tcs? with
  | none => rfl
  | some tcs =>
      cases htcs : tcs.isEmpty with
      | true =>
          rw [List.isEmpty_iff] at htcs
          subst htcs
          rfl
      | false =>
          simp only [patchMessage, messageArgs, htcs, Bool.false_eq_true,
            if_false, List.filterMap_map]
          rw [List.map_filterMap]
          exact List.filterMap_congr (fun tc _ => toolCallArg?_patch tc)

/-- The arguments payloads that `patchGeneration` delivers are the `fixArg`
image of the payloads it received. -/
theorem generationArgs_patch (g : Generation) :
    generationArgs (patchGeneration g) = (generationArgs g).map fixArg := by
  rcases g with ⟨m?, info⟩
  cases m? with
  | none => rfl
  | some m => simpa [patchGeneration, generationArgs] using messageArgs_patch m

/-- The arguments payloads of one patched batch are the `fixArg` image of
the payloads of the batch. -/
theorem batchArgs_patch (batch : List Generation) :
    (batch.map patchGeneration).map generationArgs
      = (batch.map generationArgs).map (List.map fixArg) := by
  simp only [List.map_map]
  exact List.map_congr_left (fun g _ => by simp [Function.comp, generationArgs_patch])

/-- The arguments payloads that the whole pass delivers are the `fixArg`
image of the payloads the underlying call returned. -/
theorem resultArgs_patch (r : ChatResult) :
    resultArgs (patchResult r) = (resultArgs r).map fixArg := by
  rcases r with ⟨gens, llm⟩
  simp only [patchResult, resultArgs, List.map_flatten, List.map_map]
  rw [show (List.map generationArgs ∘ fun generation => List.map patchGeneration generation)
        = fun batch => (batch.map generationArgs).map (List.map fixArg) from
      funext (fun batch => batchArgs_patch batch)]
  rfl

/-- A message all of whose reachable arguments payloads are non-strings is
left untouched by `patchMessage`. -/
theorem patchMessage_id (m : Message)
    (h : ∀ v, v ∈ messageArgs m → v.isStr = false) :
    patchMessage m = m := by
  rcases m with ⟨⟨tcs?, kex⟩, content⟩
  cases tcs? with
  | none => rfl
  | some tcs =>
      cases htcs : tcs.isEmpty with
      | true => simp [patchMessage, htcs]
      | false =>
          simp only [patchMessage, htcs, Bool.false_eq_true, if_false]
          have hmap : tcs.map patchToolCall = tcs := by
            refine map_eq_self_of_mem tcs (fun tc htc => ?_)
            refine patchToolCall_id tc (fun v hv => ?_)
            exact h v (List.mem_filterMap.mpr ⟨tc, htc, hv⟩)
          rw [hmap]

/-- A generation entry all of whose reachable arguments payloads are
non-strings is left untouched by `patchGeneration`. -/
theorem patchGeneration_id (g : Generation)
    (h : ∀ v, v ∈ generationArgs g → v.isStr = false) :
    patchGeneration g = g := by
  rcases g with ⟨m?, info⟩
  cases m? with
  | none => rfl
  | some m =>
      simp only [patchGeneration]
      rw [patchMessage_id m (fun v hv => h v hv)]

/-- The factory in closed form: the chosen constructor is decided by the
spec routing rule and the five construction parameters pass through. The
truthiness guard on the empty base URL does not change the routing, because
the empty string contains no substring "deepseek.com". -/
theorem create_chat_model_spec (m : String) (bu ak : Option String)
    (mr t : Int) (vb : Bool) :
    create_chat_model m bu ak mr t vb =
      { kind := if spec_routes_to_patched bu then ClientKind.patched else ClientKind.plain,
        model := m, base_url := bu, api_key := ak, max_retries := mr, timeout := t } := by
  cases bu with
  | none => rfl
  | some u =>
      by_cases hu : u = ""
      · subst hu; rfl
      · have hb : (u == "") = false := beq_eq_false_iff_ne.mpr hu
        simp only [create_chat_model, pyTruthyStr, spec_routes_to_patched, hb,
          Bool.not_false, Bool.true_and]
        by_cases hX : strContains (pyLower u) "deepseek.com" = true <;> simp [hX]

/-- C1: a base URL containing "deepseek.com" in any letter case routes to
the `DeepSeekChatOpenAI` constructor, every other base URL (including the
absent one) routes to the plain `ChatOpenAI` constructor, and in both cases
the returned client carries the given model identifier. -/
theorem create_chat_model_routing (m : String) (bu ak : Option String)
    (mr t : Int) (vb : Bool) :
    (create_chat_model m bu ak mr t vb).kind
      = (if spec_routes_to_patched bu then ClientKind.patched else ClientKind.plain)
    ∧ (create_chat_model m bu ak mr t vb).model = m := by
  rw [create_chat_model_spec]
  exact ⟨rfl, rfl⟩

/-- C8: `is_deepseek_official_api` performs the same substring test as the
routing decision of `create_chat_model` — the factory returns the patched
client exactly when the predicate holds — and the predicate is false on an
absent base URL. -/
theorem is_deepseek_official_api_matches_routing (m : String)
    (bu ak : Option String) (mr t : Int) (vb : Bool) :
    ((create_chat_model m bu ak mr t vb).kind = ClientKind.patched
        ↔ is_deepseek_official_api bu = true)
    ∧ is_deepseek_official_api none = false := by
  refine ⟨?_, rfl⟩
  rw [create_chat_model_spec]
  rw [show spec_routes_to_patched bu = is_deepseek_official_api bu from rfl]
  cases h : is_deepseek_official_api bu <;> simp [h]

/-- C9: both branches of `create_chat_model` hand the given `model`,
`base_url`, `api_key`, `max_retries` and `timeout` values unchanged to the
constructed client. -/
theorem create_chat_model_pass_through (m : String) (bu ak : Option String)
    (mr t : Int) (vb : Bool) :
    (create_chat_model m bu ak mr t vb).model = m
    ∧ (create_chat_model m bu ak mr t vb).base_url = bu
    ∧ (create_chat_model m bu ak mr t vb).api_key = ak
    ∧ (create_chat_model m bu ak mr t vb).max_retries = mr
    ∧ (create_chat_model m bu ak mr t vb).timeout = t := by
  rw [create_chat_model_spec]
  exact ⟨rfl, rfl, rfl, rfl, rfl⟩

/-- C10: the overridden `_create_message_dicts` returns exactly what the
base implementation returns on the same inputs, for every base
implementation, messages list and stop value. -/
theorem create_message_dicts_identity
    (superMD : List Message → Option (List String) → List (List (String × JVal)))
    (messages : List Message) (stop : Option (List String)) :
    DeepSeekChatOpenAI_create_message_dicts superMD messages stop
      = superMD messages stop := rfl

/-- C7: the patching pass of the suspending entry point `_agenerate` is the
same transformation as the patching pass of the blocking entry point
`_generate`: on every Generation Result returned by the underlying call the
two produce the same patched result. -/
theorem agenerate_eq_generate (r : ChatResult) :
    DeepSeekChatOpenAI_agenerate r = DeepSeekChatOpenAI_generate r := rfl

/-- Counterexample to C2 as stated: on an upstream result whose arguments
payload is the unparsable string "not-json", the patching pass of
`_generate` delivers a raw string to the caller, so not every delivered
payload is a structured mapping. -/
theorem generate_delivers_raw_string :
    allArgsStructured (DeepSeekChatOpenAI_generate (resultOf [tcNotJson])) = false
    ∧ firstArg? (DeepSeekChatOpenAI_generate (resultOf [tcNotJson]))
        = some (JVal.jstr "not-json") :=
  ⟨rfl, rfl⟩

/-- C2 (amended): the patching pass maps every delivered arguments payload
through the per-payload fix: a string payload is delivered as its JSON
parse when parsing succeeds, is delivered as the unchanged raw string when
parsing fails, and non-string payloads are delivered unchanged. -/
theorem generate_args_fixed (r : ChatResult) (s : String) :
    resultArgs (DeepSeekChatOpenAI_generate r) = (resultArgs r).map fixArg
    ∧ (jsonParse s = none → fixArg (JVal.jstr s) = JVal.jstr s)
    ∧ (∀ v, jsonParse s = some v → fixArg (JVal.jstr s) = v) := by
  refine ⟨resultArgs_patch r, fun hn => ?_, fun v hv => ?_⟩
  · simp [fixArg, hn]
  · simp [fixArg, hv]

/-- Witness for the amended C2, at the unparsable fixture and at the
round-trip argument string. -/
theorem generate_args_fixed_witness :
    resultArgs (DeepSeekChatOpenAI_generate (resultOf [tcNotJson]))
        = (resultArgs (resultOf [tcNotJson])).map fixArg
    ∧ fixArg (JVal.jstr "not-json") = JVal.jstr "not-json"
    ∧ fixArg (JVal.jstr argsJson) = JVal.jobj [("x", JVal.jnum 1), ("y", JVal.jstr "a")] :=
  ⟨(generate_args_fixed (resultOf [tcNotJson]) "not-json").1,
   (generate_args_fixed (resultOf [tcNotJson]) "not-json").2.1 rfl,
   (generate_args_fixed (resultOf [tcNotJson]) argsJson).2.2
     (JVal.jobj [("x", JVal.jnum 1), ("y", JVal.jstr "a")]) rfl⟩

/-- C3: a tool call whose arguments payload is a string that fails JSON
parsing comes out of the pass with the exact original string (there is no
exception to model: the pass is a total function), and sibling tool calls
before and after it are patched exactly as they would be on their own. -/
theorem patch_keeps_unparsable_string (pre post : List ToolCall) (tc : ToolCall)
    (f : FuncField) (s : String) (hf : tc.function? = some f)
    (ha : f.arguments? = some (JVal.jstr s)) (hp : jsonParse s = none) :
    patchToolCall tc = tc
    ∧ (pre ++ tc :: post).map patchToolCall
        = pre.map patchToolCall ++ tc :: post.map patchToolCall := by
  have h1 : patchToolCall tc = tc := by
    simp [patchToolCall, hf, ha, hp]
  exact ⟨h1, by rw [List.map_append, List.map_cons, h1]⟩

/-- Witness for C3: the "not-json" fixture between two siblings. -/
theorem patch_keeps_unparsable_string_witness :
    patchToolCall tcNotJson = tcNotJson
    ∧ ([tcRound] ++ tcNotJson :: [tcStructured]).map patchToolCall
        = [tcRound].map patchToolCall ++ tcNotJson :: [tcStructured].map patchToolCall :=
  patch_keeps_unparsable_string [tcRound] [tcStructured] tcNotJson fnNotJson
    "not-json" rfl rfl rfl

/-- C4: a tool call whose arguments payload is a string that parses as JSON
comes out of the pass with the payload replaced in place by the parsed
value; in particular the round-trip string of the spec parses to the
mapping with x bound to 1 and y bound to "a". -/
theorem patch_replaces_parsable_string (tc : ToolCall) (f : FuncField)
    (s : String) (v : JVal) (hf : tc.function? = some f)
    (ha : f.arguments? = some (JVal.jstr s)) (hp : jsonParse s = some v) :
    patchToolCall tc = { tc with function? := some { f with arguments? := some v } }
    ∧ jsonParse argsJson = some (JVal.jobj [("x", JVal.jnum 1), ("y", JVal.jstr "a")]) := by
  refine ⟨?_, rfl⟩
  simp [patchToolCall, hf, ha, hp]

/-- Witness for C4 at the round-trip fixture. -/
theorem patch_replaces_parsable_string_witness :
    patchToolCall tcRound = { tcRound with function? := some fnRoundPatched }
    ∧ jsonParse argsJson = some (JVal.jobj [("x", JVal.jnum 1), ("y", JVal.jstr "a")]) :=
  patch_replaces_parsable_string tcRound fnRound argsJson
    (JVal.jobj [("x", JVal.jnum 1), ("y", JVal.jstr "a")]) rfl rfl rfl

/-- Counterexample to the second half of C5 as stated: applying the pass
twice is not the same as applying it once. The arguments string that is the
JSON text of a quoted empty object parses to the string of an empty object,
which a second pass parses again, to the empty mapping. -/
theorem patch_twice_ne_once :
    patchResult (patchResult (resultOf [tcQuoted])) ≠ patchResult (resultOf [tcQuoted]) := by
  intro h
  have h2 : firstArg? (patchResult (patchResult (resultOf [tcQuoted])))
      = firstArg? (patchResult (resultOf [tcQuoted])) := congrArg firstArg? h
  rw [show firstArg? (patchResult (patchResult (resultOf [tcQuoted])))
        = some (JVal.jobj []) from rfl] at h2
  rw [show firstArg? (patchResult (resultOf [tcQuoted]))
        = some (JVal.jstr "\x7b\x7d") from rfl] at h2
  exact JVal.noConfusion (Option.some.inj h2)

/-- C5 (amended): on a Generation Result in which every tool-call arguments
payload is already a structured (non-string) value, the patching pass is
the identity. (Applying the pass twice can differ from applying it once,
because a successful parse may itself produce a string.) -/
theorem patch_id_of_structured (r : ChatResult)
    (h : allArgsStructured r = true) :
    patchResult r = r := by
  rcases r with ⟨gens, llm⟩
  have hargs : ∀ v, v ∈ resultArgs ⟨gens, llm⟩ → v.isStr = false := by
    intro v hv
    have := List.all_eq_true.mp h v hv
    simpa using this
  simp only [patchResult]
  congr 1
  refine map_eq_self_of_mem gens (fun batch hbatch => ?_)
  refine map_eq_self_of_mem batch (fun g hg => ?_)
  refine patchGeneration_id g (fun v hv => ?_)
  refine hargs v ?_
  exact List.mem_flatten.mpr
    ⟨generationArgs g,
     List.mem_map.mpr ⟨g, List.mem_flatten.mpr ⟨batch, hbatch, hg⟩, rfl⟩, hv⟩

/-- Witness for the amended C5, on a result whose only arguments payload is
already a mapping. -/
theorem patch_id_of_structured_witness :
    allArgsStructured (resultOf [tcStructured]) = true
    ∧ patchResult (resultOf [tcStructured]) = resultOf [tcStructured] :=
  ⟨rfl, patch_id_of_structured (resultOf [tcStructured]) rfl⟩

/-- C6: the pass changes nothing but string-valued arguments payloads inside
tool calls. The remaining attributes of the result, of every generation
entry, of every message, of every tool call and of its function entry pass
through unchanged; an entry without a message, a message whose tool_calls
field is absent or the empty sequence, and a tool call whose arguments
payload is not a string pass through whole. -/
theorem patch_frame (r : ChatResult) (g : Generation) (m : Message) (tc : ToolCall) :
    (patchResult r).llm_output = r.llm_output
    ∧ (patchResult r).generations
        = r.generations.map (fun batch => batch.map patchGeneration)
    ∧ (g.message? = none → patchGeneration g = g)
    ∧ (patchGeneration g).info = g.info
    ∧ ((m.additional_kwargs.tool_calls? = none
          ∨ m.additional_kwargs.tool_calls? = some []) → patchMessage m = m)
    ∧ (patchMessage m).content = m.content
    ∧ (patchMessage m).additional_kwargs.extra = m.additional_kwargs.extra
    ∧ (patchToolCall tc).extra = tc.extra
    ∧ (∀ f, tc.function? = some f →
        ∃ f2, (patchToolCall tc).function? = some f2 ∧ f2.extra = f.extra)
    ∧ (∀ f v, tc.function? = some f → f.arguments? = some v → v.isStr = false →
        patchToolCall tc = tc) := by
  refine ⟨rfl, rfl, ?_, ?_, ?_, ?_, ?_, ?_, ?_, ?_⟩
  · rcases g with ⟨m?, info⟩
    intro hm
    simp only at hm
    subst hm
    rfl
  · rcases g with ⟨m?, info⟩
    cases m? <;> rfl
  · rcases m with ⟨⟨tcs?, kex⟩, content⟩
    rintro (htc | htc) <;> simp only at htc <;> subst htc <;> rfl
  · rcases m with ⟨⟨tcs?, kex⟩, content⟩
    cases tcs? with
    | none => rfl
    | some tcs =>
        simp only [patchMessage]
        cases tcs.isEmpty <;> rfl
  · rcases m with ⟨⟨tcs?, kex⟩, content⟩
    cases tcs? with
    | none => rfl
    | some tcs =>
        simp only [patchMessage]
        cases tcs.isEmpty <;> rfl
  · rcases tc with ⟨fn?, ex⟩
    cases fn? with
    | none => rfl
    | some f =>
        rcases f with ⟨args?, fex⟩
        cases args? with
        | none => rfl
        | some v =>
            cases v with
            | jnull => rfl
            | jbool b => rfl
            | jnum n => rfl
            | jarr xs => rfl
            | jobj fs => rfl
            | jstr s => cases h : jsonParse s <;> simp [patchToolCall, h]
  · intro f hf
    rcases tc with ⟨fn?, ex⟩
    simp only at hf
    subst hf
    rcases f with ⟨args?, fex⟩
    cases args? with
    | none => exact ⟨_, rfl, rfl⟩
    | some v =>
        cases v with
        | jnull => exact ⟨_, rfl, rfl⟩
        | jbool b => exact ⟨_, rfl, rfl⟩
        | jnum n => exact ⟨_, rfl, rfl⟩
        | jarr xs => exact ⟨_, rfl, rfl⟩
        | jobj fs => exact ⟨_, rfl, rfl⟩
        | jstr s =>
            cases h : jsonParse s with
            | none => exact ⟨_, by simp [patchToolCall, h], rfl⟩
            | some w =>
                refine ⟨{ arguments? := some w, extra := fex }, ?_, rfl⟩
                simp [patchToolCall, h]
  · intro f v hf ha hs
    refine patchToolCall_id tc (fun w hw => ?_)
    have hv : toolCallArg? tc = some v := by simp [toolCallArg?, hf, ha]
    rw [hv] at hw
    obtain rfl : v = w := Option.some.inj hw
    exact hs

/-- Witness for C6: a message-free entry, a message with the empty tool-call
sequence, and a tool call with structured arguments all pass through
whole. -/
theorem patch_frame_witness :
    patchGeneration { message? := none, info := [] } = { message? := none, info := [] }
    ∧ patchMessage (msgOf []) = msgOf []
    ∧ patchToolCall tcStructured = tcStructured := by
  obtain ⟨h1, h2, h3, h4, h5, h6, h7, h8, h9, h10⟩ :=
    patch_frame (resultOf []) { message? := none, info := [] } (msgOf []) tcStructured
  exact ⟨h3 rfl, h5 (Or.inr rfl),
    h10 { arguments? := some (JVal.jobj [("x", JVal.jnum 1)]), extra := [] }
      (JVal.jobj [("x", JVal.jnum 1)]) rfl rfl rfl⟩
